import Mathlib

/-!
Verification development for a minimal static file server (Rust, axum).
The source is a single file with two request-handling functions:

* `static_path_handler` : resolves a URL path against a configured static
  root directory, infers a MIME type from the extension, and serves the
  file (200 with Content-Type) or a 404 with an empty body.
* `extract_req_res_info` : logging middleware that drains the request
  body, decodes it as UTF-8 (panicking on failure), forwards an
  equivalent request downstream, and emits one access-log record whose
  status code is the downstream response's status.

The shallow embedding below models paths as lists of characters, file
contents as lists of bytes (naturals), and the file system as a partial
map from path-segment lists to contents.  Panics are modelled as `none`
results of the enclosing operation.
-/

/-- HTTP response as produced by the handler: a status code, an optional
Content-Type header value, and a body of raw bytes. -/
structure HttpResponse where
  status : Nat
  contentType : Option (List Char)
  body : List Nat
deriving DecidableEq, Repr

/-- HTTP request: method, URI, headers and a body of raw bytes
(the request as the middleware receives it). -/
structure HttpRequest where
  method : List Char
  uri : List Char
  headers : List (List Char × List Char)
  body : List Nat
deriving DecidableEq, Repr

/-- The `AccessLog` struct of the source: uri, method, UTF-8 decoded
request body (modelled as the list of decoded Unicode code points), and
the response status code. -/
structure AccessLog where
  uri : List Char
  method : List Char
  req_body : List Nat
  status_code : Nat
deriving DecidableEq, Repr

/-- The `AppSetting` struct: the static root directory (as a list of path
segments) and the listening port. -/
structure AppSetting where
  static_dir : List (List Char)
  port : Nat
deriving DecidableEq, Repr

/-- Rust `path.trim_start_matches('/')`: repeatedly removes the matching
prefix, i.e. drops every leading `'/'`. -/
def trimStartMatchesSlash (p : List Char) : List Char :=
  p.dropWhile (fun c => c == '/')

/-- Lines 39-42 of the source: strip leading slashes, and substitute
`index.html` when the result is empty. -/
def sanitizePath (p : List Char) : List Char :=
  let stripped := trimStartMatchesSlash p
  if stripped = [] then ("index.html".data) else stripped

/-- Split a relative path string into its `'/'`-separated segments
(how the file system interprets the joined path). -/
def splitSegs : List Char → List (List Char)
  | [] => [[]]
  | c :: rest =>
    let r := splitSegs rest
    if c == '/' then [] :: r
    else
      match r with
      | [] => [[c]]
      | s :: ss => (c :: s) :: ss

/-- The file name of a path: everything after the last `'/'`
(Rust `Path::file_name` for a relative path with a final normal
component). -/
def fileName (p : List Char) : List Char :=
  (p.reverse.takeWhile (fun c => c != '/')).reverse

/-- Rust `Path::extension`: the portion of the file name after the final
`'.'`; `none` when there is no `'.'`, or when the only `'.'` is the
leading character of the file name. -/
def pathExtension (p : List Char) : Option (List Char) :=
  let rev := (fileName p).reverse
  let ext := rev.takeWhile (fun c => c != '.')
  match rev.dropWhile (fun c => c != '.') with
  | [] => none
  | [_] => none
  | _ :: _ :: _ => some ext.reverse

/-- Model of the `mime_guess` extension table (a representative subset of
the crate's database; the claims quantify over the table through
`lookupMime`, so only the entries used by concrete witnesses matter). -/
def mimeTable : List (List Char × List Char) :=
  [("html".data, "text/html".data),
   ("htm".data, "text/html".data),
   ("css".data, "text/css".data),
   ("txt".data, "text/plain".data),
   ("png".data, "image/png".data),
   ("gif".data, "image/gif".data),
   ("jpg".data, "image/jpeg".data),
   ("jpeg".data, "image/jpeg".data)]

/-- Case-insensitive best-effort MIME lookup for an optional extension
(`mime_guess::from_path(...).first()`). -/
def lookupMime : Option (List Char) → Option (List Char)
  | none => none
  | some e => mimeTable.lookup (e.map Char.toLower)

/-- `mime_guess::from_path(path).first_or_text_plain()`: the looked-up
type, defaulting to `text/plain`. -/
def first_or_text_plain (e : Option (List Char)) : List Char :=
  (lookupMime e).getD ("text/plain".data)

/-- The file system: a partial map from full path-segment lists to file
contents.  `none` models a non-existent path; `some bytes` an existing
readable file. -/
def FileSystem : Type := List (List Char) → Option (List Nat)

/-- Lines 38-65 of the source (`static_path_handler`): sanitize the path,
infer the MIME type from it, join it onto the static root, then serve
404 with an empty body and no Content-Type header when the file is
absent, or 200 with the file bytes and the inferred Content-Type when it
exists. -/
def static_path_handler (fs : FileSystem) (app_setting : AppSetting) (p : List Char) : HttpResponse :=
  let path := sanitizePath p
  let mime_type := first_or_text_plain (pathExtension path)
  let file_path := app_setting.static_dir ++ splitSegs path
  match fs file_path with
  | none => { status := 404, contentType := none, body := [] }
  | some file_content => { status := 200, contentType := some mime_type, body := file_content }

/-- The portion of the request URI the `Path` extractor hands to the
handler: the path component, i.e. the URI up to a `'?'`. -/
def requestPath (r : HttpRequest) : List Char :=
  r.uri.takeWhile (fun c => c != '?')

/-- The file responder viewed as a function of a whole request:
`static_path_handler` applied to the request's URI path, which is all
the handler's extractors read from the request.  Since the handler
strips every leading slash, its response to the full path coincides with
its response to the router's wildcard capture.  This is the responder
component in isolation; the program's actual route dispatch, with its
wildcard-match and method checks, is `routerDispatch` below. -/
def serveRequest (fs : FileSystem) (app_setting : AppSetting) (r : HttpRequest) : HttpResponse :=
  static_path_handler fs app_setting (requestPath r)

/-- axum 0.6 matching for the route `"/*path"`: a request path matches
iff it starts with `'/'` and the remainder is non-empty — the
documentation states that `"/*key"` does not match `"/"` — and the
capture is that remainder, without the leading slash. -/
def matchWildcard : List Char → Option (List Char)
  | [] => none
  | c :: rest =>
    if c = '/' then
      match rest with
      | [] => none
      | _ :: _ => some rest
    else none

/-- Model of the program's router (lines 114-117 of the source): the
single route `get("/*path")` with axum's default fallback.  A request
path the wildcard does not match — in particular the bare `/` — gets
the fallback's 404 with an empty body; a matched path is served by
`static_path_handler` on the capture when the method is GET (or HEAD,
which `get` also accepts; the HTTP layer strips a HEAD response's body
downstream of the router), and by the method router's 405 otherwise. -/
def routerDispatch (fs : FileSystem) (app_setting : AppSetting) (r : HttpRequest) : HttpResponse :=
  match matchWildcard (requestPath r) with
  | none => ⟨404, none, []⟩
  | some capture =>
    if r.method = ("GET".data) ∨ r.method = ("HEAD".data) then
      static_path_handler fs app_setting capture
    else ⟨405, none, []⟩

/-- Is `b` a UTF-8 continuation byte (`0x80..=0xBF`)? -/
def isCont (b : Nat) : Bool := 0x80 ≤ b && b ≤ 0xBF

/-- Strict UTF-8 validation and decoding as performed by Rust
`std::str::from_utf8`: rejects invalid lead bytes, truncated or invalid
continuation bytes, overlong encodings, surrogates and code points above
`U+10FFFF`.  Returns the decoded code points, or `none` on invalid
input. -/
def utf8Decode : List Nat → Option (List Nat)
  | [] => some []
  | b :: rest =>
    if b ≤ 0x7F then
      match utf8Decode rest with
      | some cps => some (b :: cps)
      | none => none
    else
      match rest with
      | [] => none
      | b1 :: rest1 =>
        if 0xC2 ≤ b && b ≤ 0xDF then
          if isCont b1 then
            match utf8Decode rest1 with
            | some cps => some (((b - 0xC0) * 0x40 + (b1 - 0x80)) :: cps)
            | none => none
          else none
        else
          match rest1 with
          | [] => none
          | b2 :: rest2 =>
            if (b == 0xE0 && 0xA0 ≤ b1 && b1 ≤ 0xBF && isCont b2)
                || (0xE1 ≤ b && b ≤ 0xEC && isCont b1 && isCont b2)
                || (b == 0xED && 0x80 ≤ b1 && b1 ≤ 0x9F && isCont b2)
                || (0xEE ≤ b && b ≤ 0xEF && isCont b1 && isCont b2) then
              match utf8Decode rest2 with
              | some cps => some (((b - 0xE0) * 0x1000 + (b1 - 0x80) * 0x40 + (b2 - 0x80)) :: cps)
              | none => none
            else
              match rest2 with
              | [] => none
              | b3 :: rest3 =>
                if (b == 0xF0 && 0x90 ≤ b1 && b1 ≤ 0xBF && isCont b2 && isCont b3)
                    || (0xF1 ≤ b && b ≤ 0xF3 && isCont b1 && isCont b2 && isCont b3)
                    || (b == 0xF4 && 0x80 ≤ b1 && b1 ≤ 0x8F && isCont b2 && isCont b3) then
                  match utf8Decode rest3 with
                  | some cps =>
                    some (((b - 0xF0) * 0x40000 + (b1 - 0x80) * 0x1000
                        + (b2 - 0x80) * 0x40 + (b3 - 0x80)) :: cps)
                  | none => none
                else none

/-- The metadata half of `Request::into_parts`. -/
structure RequestParts where
  method : List Char
  uri : List Char
  headers : List (List Char × List Char)
deriving DecidableEq, Repr

/-- Rust `req.into_parts()`: split a request into its metadata and body. -/
def HttpRequest.into_parts (r : HttpRequest) : RequestParts × List Nat :=
  (⟨r.method, r.uri, r.headers⟩, r.body)

/-- Rust `Request::from_parts(parts, body)`. -/
def HttpRequest.from_parts (parts : RequestParts) (b : List Nat) : HttpRequest :=
  ⟨parts.method, parts.uri, parts.headers, b⟩

/-- Lines 67-88 of the source (`extract_req_res_info`): split the request,
drain the body bytes, decode them as UTF-8 (the `.unwrap()` panic on
failure is modelled by the `none` result: no response is produced and no
log is emitted), build an `AccessLog` with a placeholder 200 status,
forward the reconstructed request to `next`, overwrite the log's status
with the response status, emit the record, and return the response.  The
second component of the result is the list of log records emitted while
handling the request. -/
def extract_req_res_info (next : HttpRequest → HttpResponse) (req : HttpRequest) :
    Option (HttpResponse × List AccessLog) :=
  let (parts, req_body) := req.into_parts
  let uri := parts.uri
  let method := parts.method
  match utf8Decode req_body with
  | none => none
  | some req_body_text =>
    let access_log : AccessLog :=
      { uri := uri, method := method, req_body := req_body_text, status_code := 200 }
    let req2 := HttpRequest.from_parts parts req_body
    let res := next req2
    let access_log := { access_log with status_code := res.status }
    some (res, [access_log])

/-- Directory-traversal semantics for a relative path: processing the
segments left to right while tracking the depth below the starting
directory, the path escapes iff a `".."` segment is consumed at depth
zero (empty and `"."` segments do not change the depth, as in OS path
resolution). -/
def relEscapes : List (List Char) → Nat → Bool
  | [], _ => false
  | s :: rest, d =>
    if s = ("..".data) then
      match d with
      | 0 => true
      | d' + 1 => relEscapes rest d'
    else if s = (".".data) ∨ s = [] then relEscapes rest d
    else relEscapes rest (d + 1)

/-- Does the handler's resolved file path for request path `p` escape the
configured root?  The resolved path is the root joined with the
sanitized path's segments, so it escapes the root exactly when the
relative part climbs above its starting directory. -/
def pathEscapesRoot (p : List Char) : Bool :=
  relEscapes (splitSegs (sanitizePath p)) 0

/-! Concrete demonstration data used by witness theorems. -/

/-- A demo configuration: static root `srv`, port 3000. -/
def appDemo : AppSetting := ⟨[("srv".data)], 3000⟩

/-- A demo file system holding `srv/index.html`, `srv/style.css` and
`srv/README`. -/
def fsDemo : FileSystem := fun k =>
  if k = [("srv".data), ("index.html".data)] then some [60, 104, 49, 62]
  else if k = [("srv".data), ("style.css".data)] then some [98, 111, 100, 121]
  else if k = [("srv".data), ("README".data)] then some [104, 105]
  else none

/-- Downstream handler used by middleware witnesses: the real router
(wildcard match, method check, file responder) over the demo file
system, which is what `next.run` reaches in the source. -/
def nextDemo : HttpRequest → HttpResponse := routerDispatch fsDemo appDemo

/-- The request `GET /`. -/
def reqRootDemo : HttpRequest := ⟨("GET".data), ("/".data), [], []⟩

/-- The request `GET /index.html`. -/
def reqIndexDemo : HttpRequest := ⟨("GET".data), ("/index.html".data), [], []⟩

/-! ## Claims about the path resolver and file responder -/

/-- Claim C1: for every existing file under the configured root whose
extension is mapped to MIME type `m`, a request whose path resolves to
that file returns status 200, a Content-Type header equal to `m`, and a
body byte-for-byte identical to the file's contents. -/
theorem c1_existing_file_served (fs : FileSystem) (app : AppSetting) (p : List Char)
    (content : List Nat) (m : List Char)
    (hmime : lookupMime (pathExtension (sanitizePath p)) = some m)
    (hfs : fs (app.static_dir ++ splitSegs (sanitizePath p)) = some content) :
    static_path_handler fs app p = ⟨200, some m, content⟩ := by
  unfold static_path_handler
  simp [first_or_text_plain, hmime, hfs]

/-- Witness for C1 at `GET /style.css` over the demo file system. -/
theorem c1_witness :
    lookupMime (pathExtension (sanitizePath ("/style.css".data))) = some ("text/css".data)
    ∧ fsDemo (appDemo.static_dir ++ splitSegs (sanitizePath ("/style.css".data)))
        = some [98, 111, 100, 121]
    ∧ static_path_handler fsDemo appDemo ("/style.css".data)
        = ⟨200, some ("text/css".data), [98, 111, 100, 121]⟩ :=
  ⟨by decide, by decide,
    c1_existing_file_served fsDemo appDemo ("/style.css".data) [98, 111, 100, 121]
      ("text/css".data) (by decide) (by decide)⟩

/-- Claim C2: whenever the resolved candidate file does not exist under
the configured root, the response has status 404, an empty body, and no
Content-Type header, regardless of the request path's content. -/
theorem c2_missing_file_404 (fs : FileSystem) (app : AppSetting) (p : List Char)
    (hfs : fs (app.static_dir ++ splitSegs (sanitizePath p)) = none) :
    static_path_handler fs app p = ⟨404, none, []⟩ := by
  unfold static_path_handler
  simp [hfs]

/-- Witness for C2 at `GET /missing.txt` over the demo file system. -/
theorem c2_witness :
    fsDemo (appDemo.static_dir ++ splitSegs (sanitizePath ("/missing.txt".data))) = none
    ∧ static_path_handler fsDemo appDemo ("/missing.txt".data) = ⟨404, none, []⟩ :=
  ⟨by decide, c2_missing_file_404 fsDemo appDemo ("/missing.txt".data) (by decide)⟩

/-- Counterexample for C3: the request path `/../secret.txt` is joined
onto the root unchecked, and its resolved file path escapes the
configured root directory. -/
theorem c3_counterexample : pathEscapesRoot ("/../secret.txt".data) = true := by decide

/-- Helper: a segment list containing no `".."` segment never escapes its
starting directory, at any depth. -/
theorem relEscapes_no_dotdot (segs : List (List Char))
    (h : segs.all (fun s => !(s == ("..".data))) = true) :
    ∀ d, relEscapes segs d = false := by
  induction segs with
  | nil => intro d; rfl
  | cons s rest ih =>
    intro d
    simp only [List.all_cons, Bool.and_eq_true] at h
    have hs : ¬ s = ("..".data) := by
      have h1 := h.1
      simpa using h1
    have hr := ih h.2
    unfold relEscapes
    rw [if_neg hs]
    by_cases hdot : s = (".".data) ∨ s = []
    · rw [if_pos hdot]
      exact hr d
    · rw [if_neg hdot]
      exact hr (d + 1)

/-- Claim C3, amended: the resolved file path never escapes the
configured root provided the sanitized request path contains no `".."`
segment; the code performs no traversal check, so a path with `".."`
segments can escape (see the counterexample). -/
theorem c3_no_dotdot_stays_in_root (p : List Char)
    (h : (splitSegs (sanitizePath p)).all (fun s => !(s == ("..".data))) = true) :
    pathEscapesRoot p = false :=
  relEscapes_no_dotdot (splitSegs (sanitizePath p)) h 0

/-- Witness for the amended C3 at the path `/style.css`. -/
theorem c3_witness :
    (splitSegs (sanitizePath ("/style.css".data))).all (fun s => !(s == ("..".data))) = true
    ∧ pathEscapesRoot ("/style.css".data) = false :=
  ⟨by decide, c3_no_dotdot_stays_in_root ("/style.css".data) (by decide)⟩

/-- Counterexample for C4: `trim_start_matches('/')` strips every leading
slash, not exactly one; sanitizing a path that begins with two slashes
leaves no leading slash, rather than one. -/
theorem c4_counterexample :
    trimStartMatchesSlash ("//a".data) = ("a".data)
    ∧ ("a".data) ≠ ("/a".data) := by decide

/-- Helper: after dropping the longest prefix satisfying `f`, no prefix
satisfying `f` remains. -/
theorem takeWhile_dropWhile_self (f : Char → Bool) (l : List Char) :
    ((l.dropWhile f).takeWhile f) = [] := by
  induction l with
  | nil => rfl
  | cons c l ih =>
    by_cases h : f c
    · simpa [List.dropWhile_cons, h] using ih
    · simp [List.dropWhile_cons, List.takeWhile_cons, h]

/-- Claim C4, amended: the path resolver strips every leading `'/'` (not
exactly one) from the incoming path segment before the empty-check and
the join; in particular stripping is invariant under an extra leading
slash and its result never starts with a slash. -/
theorem c4_strips_all_leading_slashes (p : List Char) :
    trimStartMatchesSlash ('/' :: p) = trimStartMatchesSlash p
    ∧ (trimStartMatchesSlash p).takeWhile (fun c => c == '/') = [] := by
  refine ⟨rfl, ?_⟩
  exact takeWhile_dropWhile_self (fun c => c == '/') p

/-- Claim C7 (code bug): the handler itself treats an empty capture as
`index.html` — so serving the index document at `/` is clearly the
intended behavior — but the axum 0.6 route `"/*path"` does not match
the request path `/`, so `GET /` takes the router fallback and returns
404 with an empty body even though `index.html` exists under the root,
while `GET /index.html` returns 200 with its contents.  The two
responses differ, contradicting the claim. -/
theorem c7_route_fallback_divergence :
    fsDemo (appDemo.static_dir ++ [("index.html".data)]) = some [60, 104, 49, 62]
    ∧ static_path_handler fsDemo appDemo ("/".data)
        = static_path_handler fsDemo appDemo ("/index.html".data)
    ∧ matchWildcard (requestPath reqRootDemo) = none
    ∧ routerDispatch fsDemo appDemo reqRootDemo = ⟨404, none, []⟩
    ∧ routerDispatch fsDemo appDemo reqIndexDemo
        = ⟨200, some ("text/html".data), [60, 104, 49, 62]⟩
    ∧ routerDispatch fsDemo appDemo reqRootDemo
        ≠ routerDispatch fsDemo appDemo reqIndexDemo := by decide

/-- Claim C8: when the sanitized request path's extension is unrecognized
by the MIME lookup or absent, the Content-Type of a successful response
defaults to `text/plain`. -/
theorem c8_unknown_extension_text_plain (fs : FileSystem) (app : AppSetting) (p : List Char)
    (content : List Nat)
    (hmime : lookupMime (pathExtension (sanitizePath p)) = none)
    (hfs : fs (app.static_dir ++ splitSegs (sanitizePath p)) = some content) :
    static_path_handler fs app p = ⟨200, some ("text/plain".data), content⟩ := by
  unfold static_path_handler
  simp [first_or_text_plain, hmime, hfs]

/-- Witness for C8 at `GET /README` (no extension) over the demo file
system. -/
theorem c8_witness :
    lookupMime (pathExtension (sanitizePath ("/README".data))) = none
    ∧ fsDemo (appDemo.static_dir ++ splitSegs (sanitizePath ("/README".data))) = some [104, 105]
    ∧ static_path_handler fsDemo appDemo ("/README".data)
        = ⟨200, some ("text/plain".data), [104, 105]⟩ :=
  ⟨by decide, by decide,
    c8_unknown_extension_text_plain fsDemo appDemo ("/README".data) [104, 105]
      (by decide) (by decide)⟩

/-! ## Claims about the access-logging middleware -/

/-- Helper: with a valid-UTF-8 body the middleware reconstructs the
original request from its parts and drained bytes, forwards it to
`next`, returns `next`'s response unmodified, and emits exactly one log
record carrying the response's status. -/
theorem extract_some_spec (next : HttpRequest → HttpResponse) (req : HttpRequest)
    (t : List Nat) (h : utf8Decode req.body = some t) :
    extract_req_res_info next req
      = some (next req, [⟨req.uri, req.method, t, (next req).status⟩]) := by
  unfold extract_req_res_info
  simp [HttpRequest.into_parts, HttpRequest.from_parts, h]

/-- Helper: with an invalid-UTF-8 body the `unwrap` panics: the
middleware produces no response and emits no log record. -/
theorem extract_none_spec (next : HttpRequest → HttpResponse) (req : HttpRequest)
    (h : utf8Decode req.body = none) :
    extract_req_res_info next req = none := by
  unfold extract_req_res_info
  simp [HttpRequest.into_parts, h]

/-- Claim C5: whenever the middleware completes, it has emitted exactly
one access-log record, and that record's `status_code` equals the status
of the response actually returned for the request (the record is built
from the downstream response, hence after it is available). -/
theorem c5_one_log_with_response_status (next : HttpRequest → HttpResponse)
    (req : HttpRequest) (res : HttpResponse) (logs : List AccessLog)
    (h : extract_req_res_info next req = some (res, logs)) :
    logs.length = 1 ∧ logs.map AccessLog.status_code = [res.status] := by
  cases hd : utf8Decode req.body with
  | none =>
    rw [extract_none_spec next req hd] at h
    exact absurd h (by simp)
  | some t =>
    rw [extract_some_spec next req t hd] at h
    have h2 := Option.some.inj h
    have hres : next req = res := congrArg Prod.fst h2
    have hlogs : [(⟨req.uri, req.method, t, (next req).status⟩ : AccessLog)] = logs :=
      congrArg Prod.snd h2
    rw [← hlogs, ← hres]
    exact ⟨rfl, rfl⟩

/-- A demo request: `GET /style.css` with no headers and an empty body. -/
def reqDemo : HttpRequest := ⟨("GET".data), ("/style.css".data), [], []⟩

/-- The response the demo pipeline produces for `reqDemo`. -/
def resDemo : HttpResponse := ⟨200, some ("text/css".data), [98, 111, 100, 121]⟩

/-- The single log record the middleware emits for `reqDemo`. -/
def logsDemo : List AccessLog := [⟨("/style.css".data), ("GET".data), [], 200⟩]

/-- Witness for C5: the demo request through the middleware over the real
handler. -/
theorem c5_witness :
    extract_req_res_info nextDemo reqDemo = some (resDemo, logsDemo)
    ∧ logsDemo.length = 1 ∧ logsDemo.map AccessLog.status_code = [resDemo.status] :=
  ⟨by decide, c5_one_log_with_response_status nextDemo reqDemo resDemo logsDemo (by decide)⟩

/-- Claim C6: the middleware passes the downstream handler a request
reconstructed from the original metadata and exactly the drained body
bytes — equal to the original request — and returns the downstream
response unmodified. -/
theorem c6_middleware_transparent (next : HttpRequest → HttpResponse) (req : HttpRequest)
    (t : List Nat) (h : utf8Decode req.body = some t) :
    HttpRequest.from_parts (req.into_parts).1 (req.into_parts).2 = req
    ∧ extract_req_res_info next req
        = some (next req, [⟨req.uri, req.method, t, (next req).status⟩]) :=
  ⟨rfl, extract_some_spec next req t h⟩

/-- A demo request with a non-empty ASCII body (bytes of `"hi"`) and a
header. -/
def reqBodyDemo : HttpRequest :=
  ⟨("GET".data), ("/style.css".data), [(("host".data), ("localhost".data))], [104, 105]⟩

/-- Witness for C6 at a request with a non-empty valid-UTF-8 body. -/
theorem c6_witness :
    utf8Decode reqBodyDemo.body = some [104, 105]
    ∧ HttpRequest.from_parts (reqBodyDemo.into_parts).1 (reqBodyDemo.into_parts).2 = reqBodyDemo
    ∧ extract_req_res_info nextDemo reqBodyDemo
        = some (nextDemo reqBodyDemo,
            [⟨reqBodyDemo.uri, reqBodyDemo.method, [104, 105], (nextDemo reqBodyDemo).status⟩]) :=
  ⟨by decide, c6_middleware_transparent nextDemo reqBodyDemo [104, 105] (by decide)⟩

/-- Claim C9: when the request body bytes are not valid UTF-8, the
middleware's decode `unwrap` is an unrecovered fault: no HTTP response
is produced and no log record is emitted. -/
theorem c9_invalid_utf8_aborts (next : HttpRequest → HttpResponse) (req : HttpRequest)
    (h : utf8Decode req.body = none) :
    extract_req_res_info next req = none :=
  extract_none_spec next req h

/-- A demo request whose body byte `0xFF` is not valid UTF-8. -/
def reqBadDemo : HttpRequest := ⟨("GET".data), ("/style.css".data), [], [255]⟩

/-- Witness for C9 at a body consisting of the single byte `0xFF`. -/
theorem c9_witness :
    utf8Decode reqBadDemo.body = none
    ∧ extract_req_res_info nextDemo reqBadDemo = none :=
  ⟨by decide, c9_invalid_utf8_aborts nextDemo reqBadDemo (by decide)⟩

/-- Claim C10: the file responder's response is a function of the request
path alone (and the file-system state): two requests with the same
extracted path get identical responses, whatever their method, headers
or body. -/
theorem c10_response_depends_only_on_path (fs : FileSystem) (app : AppSetting)
    (r1 r2 : HttpRequest) (h : requestPath r1 = requestPath r2) :
    serveRequest fs app r1 = serveRequest fs app r2 := by
  unfold serveRequest
  rw [h]

/-- A second demo request with the same path as `reqDemo` but a different
method, a query string, a header and a non-empty body. -/
def reqOtherDemo : HttpRequest :=
  ⟨("POST".data), ("/style.css?x=1".data), [(("a".data), ("b".data))], [1, 2, 3]⟩

/-- Witness for C10: same path, different method/headers/body/query. -/
theorem c10_witness :
    requestPath reqDemo = requestPath reqOtherDemo
    ∧ serveRequest fsDemo appDemo reqDemo = serveRequest fsDemo appDemo reqOtherDemo :=
  ⟨by decide, c10_response_depends_only_on_path fsDemo appDemo reqDemo reqOtherDemo (by decide)⟩
